import Mathlib

/-!
Shallow embedding of the order_app backend (src/tub.py): the return
workflow over the return_status table, the daily-order workflow over the
daily_orders table, the decision ledger (decisions, accepted_returned,
processed_orders), the old-orders audit query, and the PDF download
endpoint. SQL rows become Lean structures; tables become lists of rows in
insertion (rowid) order; CURRENT_TIMESTAMP becomes an explicit Nat
argument; NULL becomes Option.none. SQLite INSERT OR REPLACE deletes any
row that conflicts on a UNIQUE key and appends a fresh row; on a table
whose only key is the auto-increment id it behaves as a plain INSERT.
-/

namespace OrderApp

/-- One row of the return_status table.  Columns not listed in an INSERT
get their schema defaults: supplier_status and seller_status default to
the string for pending, every other column defaults to NULL. -/
structure ReturnRow where
  order_id : String
  campaign_id : String
  product_name : Option String := none
  sku : Option String := none
  quantity : Option Nat := none
  supplier_status : String := "pending"
  seller_status : String := "pending"
  supplier_username : Option String := none
  seller_username : Option String := none
  supplier_accepted_at : Option Nat := none
  supplier_delivered_at : Option Nat := none
  seller_accepted_at : Option Nat := none
deriving Repr, DecidableEq

/-- Key match on the UNIQUE(order_id, campaign_id) pair. -/
def ReturnRow.keyB (oid cid : String) (r : ReturnRow) : Bool :=
  r.order_id = oid && r.campaign_id = cid

/-- The fresh row inserted by supplier accept: only the five columns of
its INSERT are set, the rest take schema defaults. -/
def acceptRow (actor oid cid : String) (now : Nat) : ReturnRow :=
  { order_id := oid, campaign_id := cid, supplier_status := "accepted",
    supplier_username := some actor, supplier_accepted_at := some now }

/-- supplier_accept_return (src/tub.py lines 275-279): INSERT OR REPLACE
into return_status; any row conflicting on (order_id, campaign_id) is
deleted and the fresh row is appended. -/
def supplier_accept_return (st : List ReturnRow) (actor oid cid : String)
    (now : Nat) : List ReturnRow :=
  (st.filter (fun r => !(r.keyB oid cid))) ++ [acceptRow actor oid cid now]

/-- WHERE clause of the supplier deliver UPDATE: order_id, campaign_id
and supplier_username must equal the acting supplier. -/
def deliverWhere (actor oid cid : String) (r : ReturnRow) : Bool :=
  r.order_id = oid && r.campaign_id = cid && r.supplier_username = some actor

/-- SET clause of the supplier deliver UPDATE. -/
def deliverSet (now : Nat) (r : ReturnRow) : ReturnRow :=
  { r with supplier_status := "delivered", supplier_delivered_at := some now }

/-- supplier_deliver_return, guarded UPDATE part (src/tub.py lines
306-313): sets supplier_status to delivered and the delivery timestamp on
every row matching the WHERE clause; the Bool is rowcount ≠ 0, i.e. the
handler reports success rather than the 400 not-found error. -/
def supplier_deliver_return (st : List ReturnRow) (actor oid cid : String)
    (now : Nat) : List ReturnRow × Bool :=
  (st.map (fun r => if deliverWhere actor oid cid r then deliverSet now r else r),
   st.any (deliverWhere actor oid cid))

/-- WHERE clause of the seller accept UPDATE: the key must match and
supplier_status must already be delivered. -/
def sellerAccWhere (oid cid : String) (r : ReturnRow) : Bool :=
  r.order_id = oid && r.campaign_id = cid && r.supplier_status = "delivered"

/-- SET clause of the seller accept UPDATE. -/
def sellerAccSet (actor : String) (now : Nat) (r : ReturnRow) : ReturnRow :=
  { r with seller_status := "accepted", seller_username := some actor,
           seller_accepted_at := some now }

/-- seller_accept_return, guarded UPDATE part (src/tub.py lines 408-415):
sets seller_status to accepted, the seller username and the acceptance
timestamp on every row matching the WHERE clause; the Bool is
rowcount ≠ 0. -/
def seller_accept_return (st : List ReturnRow) (actor oid cid : String)
    (now : Nat) : List ReturnRow × Bool :=
  (st.map (fun r => if sellerAccWhere oid cid r then sellerAccSet actor now r else r),
   st.any (sellerAccWhere oid cid))

/-- One return-workflow operation, with its actor and its wall-clock
timestamp. -/
inductive ROp where
  | accept (actor oid cid : String) (now : Nat)
  | deliver (actor oid cid : String) (now : Nat)
  | sellerAcc (actor oid cid : String) (now : Nat)
deriving Repr, DecidableEq

/-- Apply one return-workflow operation to the table (result codes
dropped: a failed guarded UPDATE leaves the table as it was). -/
def stepR (st : List ReturnRow) : ROp → List ReturnRow
  | .accept actor oid cid now => supplier_accept_return st actor oid cid now
  | .deliver actor oid cid now => (supplier_deliver_return st actor oid cid now).1
  | .sellerAcc actor oid cid now => (seller_accept_return st actor oid cid now).1

/-- Run a sequence of return-workflow operations left to right. -/
def runR (st : List ReturnRow) : List ROp → List ReturnRow
  | [] => st
  | op :: ops => runR (stepR st op) ops

/-- Position of a supplier_status value along pending → accepted →
delivered. -/
def supplierRank : String → Nat
  | "pending" => 0
  | "accepted" => 1
  | "delivered" => 2
  | _ => 0

/-- Position of a seller_status value along pending → accepted. -/
def sellerRank : String → Nat
  | "pending" => 0
  | "accepted" => 1
  | _ => 0

/-- The UNIQUE(order_id, campaign_id) constraint: no two rows of the
table share a key. -/
def uniqueKeys (st : List ReturnRow) : Prop :=
  st.Pairwise (fun r s => ¬(r.order_id = s.order_id ∧ r.campaign_id = s.campaign_id))

instance : DecidablePred uniqueKeys := fun _ => by
  unfold uniqueKeys; infer_instance

/-- Row-by-row statement that a table update never moved a status field
backwards. -/
def StatusesAdvance (st st' : List ReturnRow) : Prop :=
  List.Forall₂ (fun r r' =>
    supplierRank r.supplier_status ≤ supplierRank r'.supplier_status ∧
    sellerRank r.seller_status ≤ sellerRank r'.seller_status) st st'

/-- Response of a deliver/seller-accept handler: the HTTP-level success
flag, the table after the request, and the manifest filename (none when
the guard failed or PDF generation raised). -/
structure HandlerResult where
  ok : Bool
  state : List ReturnRow
  pdf_filename : Option String
deriving Repr, DecidableEq

/-- A line item passed to the manifest renderer. -/
structure PdfItem where
  order_id : String
  product_name : Option String
  sku : Option String
  quantity : Option Nat
deriving Repr, DecidableEq

/-- supplier_deliver_return, whole handler (src/tub.py lines 306-346):
the guarded UPDATE runs first; on rowcount 0 the handler returns the 400
error. Otherwise the row is re-read and the renderer is invoked inside
try/except: a raising renderer (modelled by pdfGen returning none) is
logged and the handler still commits and reports success, with
pdf_filename absent. -/
def supplier_deliver_handler (st : List ReturnRow) (actor oid cid : String)
    (now : Nat) (pdfGen : List PdfItem → Option String) : HandlerResult :=
  let upd := supplier_deliver_return st actor oid cid now
  if upd.2 then
    let pdf := match upd.1.find? (fun r => r.keyB oid cid) with
      | some r => pdfGen [⟨oid, r.product_name, r.sku, r.quantity⟩]
      | none => none
    ⟨true, upd.1, pdf⟩
  else ⟨false, upd.1, none⟩

/-- seller_accept_return, whole handler (src/tub.py lines 408-448): same
shape as the deliver handler, around the seller-accept guarded UPDATE. -/
def seller_accept_handler (st : List ReturnRow) (actor oid cid : String)
    (now : Nat) (pdfGen : List PdfItem → Option String) : HandlerResult :=
  let upd := seller_accept_return st actor oid cid now
  if upd.2 then
    let pdf := match upd.1.find? (fun r => r.keyB oid cid) with
      | some r => pdfGen [⟨oid, r.product_name, r.sku, r.quantity⟩]
      | none => none
    ⟨true, upd.1, pdf⟩
  else ⟨false, upd.1, none⟩

/-- One row of the daily_orders table.  Its only key is the
auto-increment id (there is no UNIQUE constraint on
(order_id, campaign_id)), so INSERT OR REPLACE on it behaves as a plain
INSERT appending a row. -/
structure DailyRow where
  order_id : String
  campaign_id : String
  product_name : Option String := none
  sku : Option String := none
  quantity : Option Nat := none
  seller_decision : Option String := none
  supplier_decision : Option String := none
  seller_username : Option String := none
  supplier_username : Option String := none
  status : String := "pending"
  alternative_product : Option String := none
  updated_at : Option Nat := none
deriving Repr, DecidableEq

/-- save_daily_decision (src/tub.py lines 491-529).  Missing or empty
order_id, campaign_id or decision is a 400 validation error (Bool
false) with no write.  A seller INSERT OR REPLACE sets order_id,
campaign_id, seller_decision, seller_username, status, updated_at; a
supplier one sets order_id, campaign_id, supplier_decision,
supplier_username, alternative_product, status, updated_at.  daily_orders
has no UNIQUE key on the pair, so each write appends a new row and the
unlisted columns take their defaults.  The decision value itself is never
validated. -/
def save_daily_decision (st : List DailyRow) (role username oid cid decision
    alt : String) (now : Nat) : List DailyRow × Bool :=
  if oid = "" || cid = "" || decision = "" then (st, false)
  else if role = "seller" then
    (st ++ [{ order_id := oid, campaign_id := cid,
              seller_decision := some decision,
              seller_username := some username,
              status := "seller_accepted", updated_at := some now }], true)
  else if role = "supplier" then
    (st ++ [{ order_id := oid, campaign_id := cid,
              supplier_decision := some decision,
              supplier_username := some username,
              alternative_product := some alt,
              status := "supplier_accepted", updated_at := some now }], true)
  else (st, true)

/-- The read-back used by get_daily_orders (src/tub.py lines 471-484):
fetchone on SELECT ... WHERE order_id = ? AND campaign_id = ? returns
the first matching row in rowid order. -/
def lookupDaily (st : List DailyRow) (oid cid : String) : Option DailyRow :=
  st.find? (fun r => r.order_id = oid && r.campaign_id = cid)

/-- One line item of the request body of the save endpoint; the fields
read off each dict by save_decisions, with the same defaults as the
corresponding data.get calls. -/
structure DecisionItem where
  order_id : String
  decision : String
  warehouse : String := ""
  product_name : String := ""
  quantity : Nat := 1
  sku : String := ""
  barcode : String := ""
  campaign_id : String := ""
deriving Repr, DecidableEq

/-- One row of the decisions table (the append-only ledger). main_save
is stored as 0 when temp_save else 1; timestamp defaults to
CURRENT_TIMESTAMP, modelled here in days. -/
structure DecisionRow where
  order_id : String
  decision : String
  warehouse : String
  product_name : String
  quantity : Nat
  sku : String
  barcode : String
  username : String
  role : String
  main_save : Bool
  timestamp : Nat
deriving Repr, DecidableEq

/-- One row of the accepted_returned audit table. -/
structure ARRow where
  campaign_id : String
  order_id : String
  product_name : String
  quantity : Nat
  status : String
  seller_username : String
  supplier_username : String
deriving Repr, DecidableEq

/-- The three tables written by the save endpoint.  processed_orders has
username as PRIMARY KEY and count read back through COALESCE(..., 0), so
it is a total map from username to count, 0 for absent rows. -/
structure LedgerState where
  decisions : List DecisionRow
  accepted_returned : List ARRow
  processed : String → Nat

/-- The decisions-table row inserted for one line item (src/tub.py lines
1444-1459). -/
def mkDecisionRow (username role : String) (temp_save : Bool) (now : Nat)
    (d : DecisionItem) : DecisionRow :=
  { order_id := d.order_id, decision := d.decision, warehouse := d.warehouse,
    product_name := d.product_name, quantity := d.quantity, sku := d.sku,
    barcode := d.barcode, username := username, role := role,
    main_save := !temp_save, timestamp := now }

/-- The accepted_returned row inserted for one line item (src/tub.py
lines 1461-1475): status is accepted when the decision is yes, else
returned; the actor name goes into the column of their role. -/
def mkARRow (username role : String) (d : DecisionItem) : ARRow :=
  { campaign_id := d.campaign_id, order_id := d.order_id,
    product_name := d.product_name, quantity := d.quantity,
    status := if d.decision = "yes" then "accepted" else "returned",
    seller_username := if role = "seller" then username else "",
    supplier_username := if role = "supplier" then username else "" }

/-- save_decisions, ledger part (src/tub.py lines 1426-1483): an empty
decisions list is a 400 validation error (Bool false) with no write;
otherwise one decisions row and one accepted_returned row are inserted
per line item and the processed_orders counter of the acting user is
bumped by the number of line items through INSERT OR REPLACE with
COALESCE. -/
def save_decisions (st : LedgerState) (username role : String)
    (items : List DecisionItem) (temp_save : Bool) (now : Nat) :
    LedgerState × Bool :=
  if items.isEmpty then (st, false)
  else
    ({ decisions :=
         st.decisions ++ items.map (mkDecisionRow username role temp_save now),
       accepted_returned :=
         st.accepted_returned ++ items.map (mkARRow username role),
       processed := fun u =>
         if u = username then st.processed username + items.length
         else st.processed u },
     true)

/-- Columns of the decisions table as created by init_db (src/tub.py
lines 92-107).  Note: there is no campaign_id column. -/
def decisionsColumns : List String :=
  ["id", "order_id", "decision", "warehouse", "product_name", "quantity",
   "sku", "barcode", "username", "role", "main_save", "timestamp"]

/-- Columns the seller branch of the old-orders SELECT refers to in its
WHERE and ORDER BY clauses (src/tub.py lines 545-552). -/
def sellerOldOrdersRefCols : List String :=
  ["username", "role", "timestamp", "campaign_id"]

/-- The 30-day age filter date(timestamp) < date(now, -30 days), with
timestamps in days. -/
def olderThan30 (today : Nat) (r : DecisionRow) : Bool :=
  r.timestamp + 30 < today

/-- Descending insertion by a Nat key (model of ORDER BY ... DESC). -/
def insertDescBy (key : DecisionRow → Nat) (x : DecisionRow) :
    List DecisionRow → List DecisionRow
  | [] => [x]
  | y :: ys => if key x ≥ key y then x :: y :: ys else y :: insertDescBy key x ys

/-- Descending insertion sort by a Nat key. -/
def sortDescBy (key : DecisionRow → Nat) : List DecisionRow → List DecisionRow
  | [] => []
  | x :: xs => insertDescBy key x (sortDescBy key xs)

/-- get_old_orders (src/tub.py lines 534-573).  The seller branch emits
SQL whose WHERE clause refers to a campaign_id column the decisions
table does not have, so sqlite raises an operational error before
returning any row; the supplier and admin branches filter by username
and role (supplier) and by the 30-day age cutoff, order by timestamp
descending and cap at 100 and 200 rows. -/
def get_old_orders (rows : List DecisionRow) (role username : String)
    (today : Nat) : Except String (List DecisionRow) :=
  if role = "seller" then
    if sellerOldOrdersRefCols.all (fun c => decisionsColumns.contains c) then
      .ok ((sortDescBy (·.timestamp)
        (rows.filter (fun r => r.username = username && r.role = "seller" &&
          olderThan30 today r))).take 100)
    else .error "no such column: campaign_id"
  else if role = "supplier" then
    .ok ((sortDescBy (·.timestamp)
      (rows.filter (fun r => r.username = username && r.role = "supplier" &&
        olderThan30 today r))).take 100)
  else if role = "admin" then
    .ok ((sortDescBy (·.timestamp)
      (rows.filter (fun r => olderThan30 today r))).take 200)
  else .ok []

/-- Result of a request to the PDF download endpoint. -/
inductive PdfResponse where
  | file (content : String)
  | notFound
  | locked
deriving Repr, DecidableEq

/-- get_user_from_token (src/tub.py lines 719-745): hash the token, look
it up in the sessions table, evict and reject when expired, else return
the configured role of the session user. -/
def get_user_from_token (sessions : String → Option (String × Nat))
    (userRole : String → Option String) (hash : String → String) (now : Nat)
    (token : String) : Option String :=
  match sessions (hash token) with
  | none => none
  | some (u, expiry) => if expiry < now then none else userRole u

/-- A request to GET /api/pdf/<filename> as processed by the app: the
check_maintenance before_request hook (src/tub.py lines 679-694) fires
first — under maintenance mode any /api/ path not ending in /public_url
is answered 423 Locked unless the presented token resolves to an admin —
then the get_pdf handler (src/tub.py lines 1649-1656) serves the file
from the temp directory, or a 404, without ever reading the
Authorization header. -/
def handle_get_pdf (maintenance : Bool)
    (sessions : String → Option (String × Nat))
    (userRole : String → Option String) (hash : String → String) (now : Nat)
    (auth : Option String) (files : String → Option String)
    (filename : String) : PdfResponse :=
  if maintenance && !(filename = "public_url") &&
     !(match auth with
       | some token =>
           get_user_from_token sessions userRole hash now token = some "admin"
       | none => false) then
    .locked
  else
    match files filename with
    | some c => .file c
    | none => .notFound

/-- The fetchone read-back on return_status used by the handlers and the
supplier list view. -/
def lookupRet (st : List ReturnRow) (oid cid : String) : Option ReturnRow :=
  st.find? (fun r => r.keyB oid cid)

/-- The daily_orders table after the seller alice records a decision for
(O1, C1): the INSERT OR REPLACE appends one row. -/
def daily1 : List DailyRow :=
  (save_daily_decision [] "seller" "alice" "O1" "C1" "no" "" 1).1

/-- The daily_orders table after the supplier bob then records a
decision for the same (O1, C1). -/
def daily2 : List DailyRow :=
  (save_daily_decision daily1 "supplier" "bob" "O1" "C1" "yes" "" 2).1

/-- A fully populated return_status row, as it stands after accept,
deliver and seller accept have all run. -/
def fullReturnRow : ReturnRow :=
  { order_id := "O", campaign_id := "C", product_name := some "P",
    sku := some "S", quantity := some 2, supplier_status := "delivered",
    seller_status := "accepted", supplier_username := some "u",
    seller_username := some "s", supplier_accepted_at := some 1,
    supplier_delivered_at := some 2, seller_accepted_at := some 3 }

/-! ## Helper lemmas -/

/-- A guarded UPDATE whose WHERE clause matches no row leaves the table
unchanged. -/
theorem map_if_eq_self {α : Type} {l : List α} {p : α → Bool} {f : α → α}
    (h : ∀ r ∈ l, p r = false) :
    l.map (fun r => if p r then f r else r) = l := by
  induction l with
  | nil => rfl
  | cons x xs ih =>
      simp only [List.map_cons, h x (List.mem_cons_self x xs),
        Bool.false_eq_true, if_false, List.cons.injEq, true_and]
      exact ih (fun r hr => h r (List.mem_cons_of_mem x hr))

/-- Pointwise relation between a list and its image under a map. -/
theorem forall₂_map_self {α β : Type} {l : List α} {P : α → β → Prop}
    {g : α → β} (h : ∀ a ∈ l, P a (g a)) : List.Forall₂ P l (l.map g) := by
  induction l with
  | nil => exact List.Forall₂.nil
  | cons x xs ih =>
      exact List.Forall₂.cons (h x (List.mem_cons_self x xs))
        (ih (fun a ha => h a (List.mem_cons_of_mem x ha)))

theorem supplierRank_le_two (s : String) : supplierRank s ≤ 2 := by
  unfold supplierRank; split <;> omega

theorem sellerRank_le_one (s : String) : sellerRank s ≤ 1 := by
  unfold sellerRank; split <;> omega

theorem mem_insertDescBy {key : DecisionRow → Nat} {x r : DecisionRow}
    {l : List DecisionRow} :
    r ∈ insertDescBy key x l ↔ r = x ∨ r ∈ l := by
  induction l with
  | nil => simp [insertDescBy]
  | cons y ys ih =>
      by_cases h : key x ≥ key y
      · simp [insertDescBy, h]
      · simp only [insertDescBy, if_neg h, List.mem_cons, ih]
        tauto

theorem mem_sortDescBy {key : DecisionRow → Nat} {r : DecisionRow}
    {l : List DecisionRow} :
    r ∈ sortDescBy key l ↔ r ∈ l := by
  induction l with
  | nil => simp [sortDescBy]
  | cons x xs ih =>
      simp only [sortDescBy, mem_insertDescBy, ih, List.mem_cons]

/-- Inserting into a descending-sorted list keeps it sorted. -/
theorem sorted_insertDescBy {key : DecisionRow → Nat} {x : DecisionRow}
    {l : List DecisionRow}
    (h : l.Pairwise (fun a b => key b ≤ key a)) :
    (insertDescBy key x l).Pairwise (fun a b => key b ≤ key a) := by
  induction l with
  | nil => simp [insertDescBy]
  | cons y ys ih =>
      rcases List.pairwise_cons.mp h with ⟨hy, hys⟩
      by_cases hxy : key x ≥ key y
      · rw [insertDescBy, if_pos hxy]
        refine List.pairwise_cons.mpr ⟨?_, h⟩
        intro b hb
        rcases List.mem_cons.mp hb with rfl | hb
        · exact hxy
        · exact le_trans (hy b hb) hxy
      · rw [insertDescBy, if_neg hxy]
        refine List.pairwise_cons.mpr ⟨?_, ih hys⟩
        intro b hb
        rcases mem_insertDescBy.mp hb with rfl | hb
        · omega
        · exact hy b hb

theorem sorted_sortDescBy {key : DecisionRow → Nat} {l : List DecisionRow} :
    (sortDescBy key l).Pairwise (fun a b => key b ≤ key a) := by
  induction l with
  | nil => simp [sortDescBy]
  | cons x xs ih => exact sorted_insertDescBy ih


/-- Every return-workflow step keeps the UNIQUE(order_id, campaign_id)
constraint: REPLACE deletes the conflicting row first, and the two
UPDATEs never touch key columns. -/
theorem step_preserves_uniqueKeys {st : List ReturnRow} (h : uniqueKeys st)
    (op : ROp) : uniqueKeys (stepR st op) := by
  cases op with
  | accept actor oid cid now =>
      unfold uniqueKeys at h ⊢
      rw [stepR, supplier_accept_return, List.pairwise_append]
      refine ⟨h.sublist (List.filter_sublist st), by simp, ?_⟩
      intro a ha b hb
      rcases List.mem_singleton.mp hb with rfl
      have hk : a.keyB oid cid = false := by
        simpa using (List.mem_filter.mp ha).2
      simp only [ReturnRow.keyB, Bool.and_eq_false_iff,
        decide_eq_false_iff_not] at hk
      simp only [acceptRow, not_and]
      intro h1 h2
      rcases hk with hk | hk <;> exact hk (by simp_all)
  | deliver actor oid cid now =>
      unfold uniqueKeys at h ⊢
      rw [stepR]
      simp only [supplier_deliver_return]
      rw [List.pairwise_map]
      have key : ∀ r : ReturnRow,
          (if deliverWhere actor oid cid r then deliverSet now r else r).order_id
            = r.order_id ∧
          (if deliverWhere actor oid cid r then deliverSet now r else r).campaign_id
            = r.campaign_id := by
        intro r
        by_cases hp : deliverWhere actor oid cid r = true <;> simp [hp, deliverSet]
      refine h.imp ?_
      intro a b hab
      rw [(key a).1, (key a).2, (key b).1, (key b).2]
      exact hab
  | sellerAcc actor oid cid now =>
      unfold uniqueKeys at h ⊢
      rw [stepR]
      simp only [seller_accept_return]
      rw [List.pairwise_map]
      have key : ∀ r : ReturnRow,
          (if sellerAccWhere oid cid r then sellerAccSet actor now r else r).order_id
            = r.order_id ∧
          (if sellerAccWhere oid cid r then sellerAccSet actor now r else r).campaign_id
            = r.campaign_id := by
        intro r
        by_cases hp : sellerAccWhere oid cid r = true <;>
          simp [hp, sellerAccSet]
      refine h.imp ?_
      intro a b hab
      rw [(key a).1, (key a).2, (key b).1, (key b).2]
      exact hab

/-! ## Claim theorems -/

/-- Claim C2 (amended): the unique key keeps at most one row per
(order_id, campaign_id) under any operation sequence, and the two
guarded UPDATE operations supplier_deliver and seller_accept only ever
advance the status fields; supplier_accept, being INSERT OR REPLACE, is
the exception that can move them backwards. -/
theorem return_status_unique_and_forward (st : List ReturnRow) :
    (uniqueKeys st → ∀ ops, uniqueKeys (runR st ops)) ∧
    (∀ actor oid cid now,
      StatusesAdvance st (supplier_deliver_return st actor oid cid now).1 ∧
      StatusesAdvance st (seller_accept_return st actor oid cid now).1) := by
  constructor
  · intro h ops
    induction ops generalizing st with
    | nil => exact h
    | cons op ops ih => exact ih _ (step_preserves_uniqueKeys h op)
  · intro actor oid cid now
    constructor
    · simp only [supplier_deliver_return, StatusesAdvance]
      apply forall₂_map_self
      intro r _
      by_cases hp : deliverWhere actor oid cid r = true
      · simp only [hp, if_true, deliverSet]
        exact ⟨supplierRank_le_two _, le_refl _⟩
      · simp only [hp]
        simp
    · simp only [seller_accept_return, StatusesAdvance]
      apply forall₂_map_self
      intro r _
      by_cases hp : sellerAccWhere oid cid r = true
      · simp only [hp, if_true, sellerAccSet]
        exact ⟨le_refl _, sellerRank_le_one _⟩
      · simp only [hp]
        simp

/-- Witness for the amended C2 theorem at a concrete table and
operation list. -/
theorem return_status_unique_and_forward_witness :
    uniqueKeys (runR [acceptRow "u" "O" "C" 1]
      [ROp.deliver "u" "O" "C" 2, ROp.accept "u" "O" "C" 3]) ∧
    StatusesAdvance [acceptRow "u" "O" "C" 1]
      (supplier_deliver_return [acceptRow "u" "O" "C" 1] "u" "O" "C" 2).1 :=
  ⟨(return_status_unique_and_forward [acceptRow "u" "O" "C" 1]).1 (by decide) _,
   ((return_status_unique_and_forward [acceptRow "u" "O" "C" 1]).2 "u" "O" "C" 2).1⟩

/-- Counterexample to claim C2 as stated: after accept and deliver the
row is delivered (and after a seller accept, seller-accepted), but one
more supplier_accept moves supplier_status back from delivered to
accepted and seller_status back from accepted to pending. -/
theorem return_status_regression_cex :
    ((lookupRet (runR [] [ROp.accept "u" "O" "C" 1, ROp.deliver "u" "O" "C" 2,
        ROp.sellerAcc "s" "O" "C" 3]) "O" "C").map
      (fun r => (r.supplier_status, r.seller_status)) =
        some ("delivered", "accepted")) ∧
    ((lookupRet (runR [] [ROp.accept "u" "O" "C" 1, ROp.deliver "u" "O" "C" 2,
        ROp.sellerAcc "s" "O" "C" 3, ROp.accept "u" "O" "C" 4]) "O" "C").map
      (fun r => (r.supplier_status, r.seller_status)) =
        some ("accepted", "pending")) ∧
    supplierRank "accepted" < supplierRank "delivered" ∧
    sellerRank "pending" < sellerRank "accepted" := by
  decide

/-- Claim C3: seller_accept succeeds exactly when the stored row for the
pair has supplier_status delivered; on failure (in particular whenever no
delivered row exists, e.g. before supplier_deliver) it mutates no row;
on success the row gets seller_status accepted, the seller username and
the acceptance timestamp. -/
theorem seller_accept_return_guarded (st : List ReturnRow)
    (actor oid cid : String) (now : Nat) :
    ((seller_accept_return st actor oid cid now).2 = true ↔
       ∃ r ∈ st, sellerAccWhere oid cid r = true) ∧
    ((seller_accept_return st actor oid cid now).2 = false →
       (seller_accept_return st actor oid cid now).1 = st) ∧
    ((seller_accept_return st actor oid cid now).2 = true →
       ∃ r ∈ (seller_accept_return st actor oid cid now).1,
         r.keyB oid cid = true ∧ r.seller_status = "accepted" ∧
         r.seller_username = some actor ∧ r.seller_accepted_at = some now) := by
  refine ⟨List.any_eq_true, ?_, ?_⟩
  · intro h
    have h' : ∀ r ∈ st, sellerAccWhere oid cid r = false := by
      intro r hr
      have := List.any_eq_false.mp h r hr
      simpa using this
    exact map_if_eq_self h'
  · intro h
    obtain ⟨r, hr, hp⟩ := List.any_eq_true.mp h
    have hp' := hp
    simp only [sellerAccWhere, Bool.and_eq_true, decide_eq_true_eq] at hp'
    have hmem := List.mem_map_of_mem
      (fun s => if sellerAccWhere oid cid s then sellerAccSet actor now s else s) hr
    simp only [hp, if_true] at hmem
    have hmem2 : sellerAccSet actor now r ∈
        (seller_accept_return st actor oid cid now).1 := by
      simpa [seller_accept_return] using hmem
    exact ⟨_, hmem2, by simp [sellerAccSet, ReturnRow.keyB, hp'.1.1, hp'.1.2],
      rfl, rfl, rfl⟩

/-- Witness for the C3 theorem: at a delivered row the seller accept
succeeds and writes the seller fields. -/
theorem seller_accept_return_guarded_witness :
    ∃ r ∈ (seller_accept_return [fullReturnRow] "s2" "O" "C" 9).1,
      r.keyB "O" "C" = true ∧ r.seller_status = "accepted" ∧
      r.seller_username = some "s2" ∧ r.seller_accepted_at = some 9 :=
  (seller_accept_return_guarded [fullReturnRow] "s2" "O" "C" 9).2.2 (by decide)

/-- Claim C4: supplier_deliver succeeds exactly when some row matches
order_id, campaign_id and supplier_username = the acting supplier; when
every row for the pair is owned by someone else (in particular when the
pair was never accepted at all) it fails with no state change; on
success the matched row gets supplier_status delivered and the delivery
timestamp. -/
theorem supplier_deliver_return_guarded (st : List ReturnRow)
    (actor oid cid : String) (now : Nat) :
    ((supplier_deliver_return st actor oid cid now).2 = true ↔
       ∃ r ∈ st, deliverWhere actor oid cid r = true) ∧
    ((∀ r ∈ st, r.keyB oid cid = true → ¬(r.supplier_username = some actor)) →
       supplier_deliver_return st actor oid cid now = (st, false)) ∧
    ((supplier_deliver_return st actor oid cid now).2 = true →
       ∃ r ∈ (supplier_deliver_return st actor oid cid now).1,
         r.keyB oid cid = true ∧ r.supplier_status = "delivered" ∧
         r.supplier_delivered_at = some now) := by
  refine ⟨List.any_eq_true, ?_, ?_⟩
  · intro h
    have h' : ∀ r ∈ st, deliverWhere actor oid cid r = false := by
      intro r hr
      by_cases hk : r.keyB oid cid = true
      · have hne := h r hr hk
        simp only [ReturnRow.keyB, Bool.and_eq_true, decide_eq_true_eq] at hk
        simp [deliverWhere, hk.1, hk.2, hne]
      · simp only [ReturnRow.keyB, Bool.and_eq_true, decide_eq_true_eq,
          not_and_or, Bool.not_eq_true] at hk
        rcases hk with hk | hk <;> simp [deliverWhere, hk]
    have hmap : (supplier_deliver_return st actor oid cid now).1 = st :=
      map_if_eq_self h'
    have hany : st.any (deliverWhere actor oid cid) = false :=
      List.any_eq_false.mpr (by intro r hr; simp [h' r hr])
    have : supplier_deliver_return st actor oid cid now =
        ((supplier_deliver_return st actor oid cid now).1,
         (supplier_deliver_return st actor oid cid now).2) := rfl
    rw [this, hmap]
    simp only [supplier_deliver_return, hany]
  · intro h
    obtain ⟨r, hr, hp⟩ := List.any_eq_true.mp h
    have hp' := hp
    simp only [deliverWhere, Bool.and_eq_true, decide_eq_true_eq] at hp'
    have hmem := List.mem_map_of_mem
      (fun s => if deliverWhere actor oid cid s then deliverSet now s else s) hr
    simp only [hp, if_true] at hmem
    have hmem2 : deliverSet now r ∈
        (supplier_deliver_return st actor oid cid now).1 := by
      simpa [supplier_deliver_return] using hmem
    exact ⟨_, hmem2, by simp [deliverSet, ReturnRow.keyB, hp'.1.1, hp'.1.2], rfl, rfl⟩

/-- Witness for the C4 theorem: the owning supplier delivers an
accepted row. -/
theorem supplier_deliver_return_guarded_witness :
    ∃ r ∈ (supplier_deliver_return [acceptRow "u" "O" "C" 1] "u" "O" "C" 2).1,
      r.keyB "O" "C" = true ∧ r.supplier_status = "delivered" ∧
      r.supplier_delivered_at = some 2 :=
  (supplier_deliver_return_guarded [acceptRow "u" "O" "C" 1]
    "u" "O" "C" 2).2.2 (by decide)

/-- Claim C6: the committed workflow state and the reported success of
the deliver and seller-accept handlers are exactly those of the guarded
UPDATE, for every behavior of the manifest renderer; a renderer that
raises (pdfGen constantly none) still leaves a successful guard reported
as success, with the manifest merely absent. -/
theorem manifest_failure_no_rollback (st : List ReturnRow)
    (actor oid cid : String) (now : Nat)
    (pdfGen : List PdfItem → Option String) :
    ((supplier_deliver_handler st actor oid cid now pdfGen).ok =
        (supplier_deliver_return st actor oid cid now).2 ∧
     (supplier_deliver_handler st actor oid cid now pdfGen).state =
        (supplier_deliver_return st actor oid cid now).1) ∧
    ((seller_accept_handler st actor oid cid now pdfGen).ok =
        (seller_accept_return st actor oid cid now).2 ∧
     (seller_accept_handler st actor oid cid now pdfGen).state =
        (seller_accept_return st actor oid cid now).1) ∧
    ((supplier_deliver_return st actor oid cid now).2 = true →
       (supplier_deliver_handler st actor oid cid now (fun _ => none)).ok = true ∧
       (supplier_deliver_handler st actor oid cid now (fun _ => none)).state =
         (supplier_deliver_return st actor oid cid now).1 ∧
       (supplier_deliver_handler st actor oid cid now
         (fun _ => none)).pdf_filename = none) ∧
    ((seller_accept_return st actor oid cid now).2 = true →
       (seller_accept_handler st actor oid cid now (fun _ => none)).ok = true ∧
       (seller_accept_handler st actor oid cid now (fun _ => none)).state =
         (seller_accept_return st actor oid cid now).1 ∧
       (seller_accept_handler st actor oid cid now
         (fun _ => none)).pdf_filename = none) := by
  by_cases h1 : (supplier_deliver_return st actor oid cid now).2 = true <;>
  by_cases h2 : (seller_accept_return st actor oid cid now).2 = true <;>
    simp [supplier_deliver_handler, seller_accept_handler, h1, h2] <;>
    cases hf : (supplier_deliver_return st actor oid cid now).1.find?
      (fun r => r.keyB oid cid) <;>
    cases hg : (seller_accept_return st actor oid cid now).1.find?
      (fun r => r.keyB oid cid) <;>
    simp [hf, hg]

/-- Witness for the C6 theorem at a concrete accepted row, where both
guards succeed. -/
theorem manifest_failure_no_rollback_witness :
    (supplier_deliver_return [acceptRow "u" "O" "C" 1] "u" "O" "C" 2).2 = true ∧
    (supplier_deliver_handler [acceptRow "u" "O" "C" 1] "u" "O" "C" 2
      (fun _ => none)).ok = true :=
  ⟨by decide,
   ((manifest_failure_no_rollback [acceptRow "u" "O" "C" 1] "u" "O" "C" 2
      (fun _ => none)).2.2.1 (by decide)).1⟩


/-- Claim C1, evaluated at the failing input: a seller decision followed
by a supplier decision for the same (order_id, campaign_id) leaves two
separate daily_orders rows (the table has no UNIQUE key on the pair, so
INSERT OR REPLACE is a plain insert), no row carries both decisions, and
the row the read path fetches still has status seller_accepted rather
than the later write supplier_accepted. -/
theorem daily_decision_rows_split :
    daily2.length = 2 ∧
    (∀ r ∈ daily2, ¬(r.seller_decision.isSome ∧ r.supplier_decision.isSome)) ∧
    (lookupDaily daily2 "O1" "C1").map (fun r => r.status) =
      some "seller_accepted" ∧
    (lookupDaily daily2 "O1" "C1").map (fun r => r.supplier_decision) =
      some none := by
  decide

/-- Counterexample to claim C8 as stated: a seller submitting the
decision alternative is not rejected — the call succeeds and a row with
seller_decision = alternative is written. -/
theorem seller_alternative_accepted_cex :
    (save_daily_decision [] "seller" "alice" "O1" "C1" "alternative" "" 1).2
      = true ∧
    (save_daily_decision [] "seller" "alice" "O1" "C1" "alternative" "" 1).1.map
      (fun r => r.seller_decision) = [some "alternative"] := by
  decide

/-- Claim C8 (amended): save_daily_decision validates only that
order_id, campaign_id and decision are non-empty, never the decision
value: a supplier decision (alternative included) is persisted together
with alternative_product, and a seller decision of alternative is
persisted just the same. -/
theorem save_daily_decision_accepts_any_decision (st : List DailyRow)
    (username oid cid decision alt : String) (now : Nat)
    (h1 : ¬oid = "") (h2 : ¬cid = "") (h3 : ¬decision = "") :
    ((save_daily_decision st "supplier" username oid cid decision alt now).2
       = true ∧
     ((save_daily_decision st "supplier" username oid cid decision alt
        now).1.getLast?.map
       (fun r => (r.supplier_decision, r.alternative_product, r.status))) =
       some (some decision, some alt, "supplier_accepted")) ∧
    ((save_daily_decision st "seller" username oid cid decision alt now).2
       = true ∧
     ((save_daily_decision st "seller" username oid cid decision alt
        now).1.getLast?.map
       (fun r => (r.seller_decision, r.status))) =
       some (some decision, "seller_accepted")) := by
  simp [save_daily_decision, h1, h2, h3, List.getLast?_concat]

/-- Witness for the amended C8 theorem: the seller alternative decision
goes through at a concrete input. -/
theorem save_daily_decision_accepts_any_decision_witness :
    ((save_daily_decision [] "seller" "alice" "O2" "C2" "alternative" "" 3).2
       = true ∧
     ((save_daily_decision [] "seller" "alice" "O2" "C2" "alternative" ""
        3).1.getLast?.map
       (fun r => (r.seller_decision, r.status))) =
       some (some "alternative", "seller_accepted")) :=
  (save_daily_decision_accepts_any_decision [] "alice" "O2" "C2" "alternative"
    "" 3 (by decide) (by decide) (by decide)).2


/-- Counterexample to claim C9 as stated: re-invoking supplier_accept on
a fully populated row does not leave product_name, sku, quantity,
seller_status, seller_username and the other timestamps unchanged — the
REPLACE resets all of them to their schema defaults. -/
theorem supplier_reaccept_clears_cex :
    fullReturnRow.product_name = some "P" ∧
    fullReturnRow.seller_status = "accepted" ∧
    ((lookupRet (supplier_accept_return [fullReturnRow] "u" "O" "C" 9)
        "O" "C").map (fun r => r.product_name)) = some none ∧
    ((lookupRet (supplier_accept_return [fullReturnRow] "u" "O" "C" 9)
        "O" "C").map (fun r => r.sku)) = some none ∧
    ((lookupRet (supplier_accept_return [fullReturnRow] "u" "O" "C" 9)
        "O" "C").map (fun r => r.quantity)) = some none ∧
    ((lookupRet (supplier_accept_return [fullReturnRow] "u" "O" "C" 9)
        "O" "C").map (fun r => r.seller_status)) = some "pending" ∧
    ((lookupRet (supplier_accept_return [fullReturnRow] "u" "O" "C" 9)
        "O" "C").map (fun r => r.seller_username)) = some none ∧
    ((lookupRet (supplier_accept_return [fullReturnRow] "u" "O" "C" 9)
        "O" "C").map (fun r => r.supplier_delivered_at)) = some none ∧
    ((lookupRet (supplier_accept_return [fullReturnRow] "u" "O" "C" 9)
        "O" "C").map (fun r => r.seller_accepted_at)) = some none := by
  decide

/-- Claim C9 (amended): supplier_accept replaces the whole row for its
key — after the call the unique row for (order_id, campaign_id) is
exactly the fresh INSERT row (supplier_status accepted, supplier
username and timestamp refreshed, every other column back at its schema
default) — while rows for other keys are untouched. -/
theorem supplier_accept_replaces_row (st : List ReturnRow)
    (actor oid cid : String) (now : Nat) :
    (∀ r ∈ supplier_accept_return st actor oid cid now,
       r.keyB oid cid = true → r = acceptRow actor oid cid now) ∧
    acceptRow actor oid cid now ∈ supplier_accept_return st actor oid cid now ∧
    (∀ r ∈ st, r.keyB oid cid = false →
       r ∈ supplier_accept_return st actor oid cid now) ∧
    (acceptRow actor oid cid now).supplier_status = "accepted" ∧
    (acceptRow actor oid cid now).supplier_username = some actor ∧
    (acceptRow actor oid cid now).supplier_accepted_at = some now ∧
    (acceptRow actor oid cid now).product_name = none ∧
    (acceptRow actor oid cid now).sku = none ∧
    (acceptRow actor oid cid now).quantity = none ∧
    (acceptRow actor oid cid now).seller_status = "pending" ∧
    (acceptRow actor oid cid now).seller_username = none ∧
    (acceptRow actor oid cid now).supplier_delivered_at = none ∧
    (acceptRow actor oid cid now).seller_accepted_at = none := by
  refine ⟨?_, ?_, ?_, rfl, rfl, rfl, rfl, rfl, rfl, rfl, rfl, rfl, rfl⟩
  · intro r hr hk
    rcases List.mem_append.mp hr with hl | hl
    · have := (List.mem_filter.mp hl).2
      rw [hk] at this
      simp at this
    · exact List.mem_singleton.mp hl
  · exact List.mem_append.mpr (Or.inr (List.mem_singleton.mpr rfl))
  · intro r hr hk
    exact List.mem_append.mpr (Or.inl (List.mem_filter.mpr ⟨hr, by simp [hk]⟩))

/-- Witness for the amended C9 theorem: a row for a different key
survives a supplier_accept for (O, C). -/
theorem supplier_accept_replaces_row_witness :
    acceptRow "v" "O2" "C" 1 ∈
      supplier_accept_return [acceptRow "v" "O2" "C" 1] "u" "O" "C" 5 :=
  (supplier_accept_replaces_row [acceptRow "v" "O2" "C" 1] "u" "O" "C" 5).2.2.1
    (acceptRow "v" "O2" "C" 1) (by decide) (by decide)

/-- Claim C5: a save call with a non-empty list of N line items reports
success, appends exactly N rows to the decisions ledger (each marked
final exactly when the call was not a temp save), appends exactly N
accepted_returned rows (accepted when the decision is yes, else
returned), and bumps the processed-order counter of the acting user by
exactly N. -/
theorem save_decisions_appends (st : LedgerState) (username role : String)
    (items : List DecisionItem) (temp_save : Bool) (now : Nat)
    (h : ¬items = []) :
    (save_decisions st username role items temp_save now).2 = true ∧
    (save_decisions st username role items temp_save now).1.decisions =
      st.decisions ++ items.map (mkDecisionRow username role temp_save now) ∧
    (save_decisions st username role items temp_save now).1.decisions.length =
      st.decisions.length + items.length ∧
    (save_decisions st username role items temp_save
      now).1.accepted_returned.length =
      st.accepted_returned.length + items.length ∧
    (save_decisions st username role items temp_save now).1.processed username =
      st.processed username + items.length ∧
    (∀ r ∈ items.map (mkDecisionRow username role temp_save now),
      r.main_save = !temp_save) ∧
    List.Forall₂ (fun (d : DecisionItem) (a : ARRow) =>
        a.status = if d.decision = "yes" then "accepted" else "returned")
      items ((save_decisions st username role items temp_save
        now).1.accepted_returned.drop st.accepted_returned.length) := by
  have hne : items.isEmpty = false := by
    cases items with
    | nil => exact absurd rfl h
    | cons x xs => rfl
  have hsd : save_decisions st username role items temp_save now =
      ({ decisions :=
           st.decisions ++ items.map (mkDecisionRow username role temp_save now),
         accepted_returned :=
           st.accepted_returned ++ items.map (mkARRow username role),
         processed := fun u =>
           if u = username then st.processed username + items.length
           else st.processed u },
       true) := by
    simp [save_decisions, hne]
  rw [hsd]
  refine ⟨rfl, rfl, by simp, by simp, by simp, ?_, ?_⟩
  · intro r hr
    obtain ⟨d, _, rfl⟩ := List.mem_map.mp hr
    rfl
  · show List.Forall₂ _ items
      ((st.accepted_returned ++ items.map (mkARRow username role)).drop
        st.accepted_returned.length)
    rw [List.drop_left]
    exact forall₂_map_self (fun d _ => rfl)

/-- Witness for the C5 theorem at a one-item call. -/
theorem save_decisions_appends_witness :
    (save_decisions ⟨[], [], fun _ => 0⟩ "alice" "seller"
      [{ order_id := "O1", decision := "yes" }] false 7).1.processed "alice" =
      (⟨[], [], fun _ => 0⟩ : LedgerState).processed "alice" + 1 :=
  (save_decisions_appends ⟨[], [], fun _ => 0⟩ "alice" "seller"
    [{ order_id := "O1", decision := "yes" }] false 7
    (by decide)).2.2.2.2.1

/-- Claim C7, evaluated against the schema: the decisions table has no
campaign_id column, so the SQL of the seller branch of get_old_orders
always fails with an operational error — a seller gets a database error
and no rows at all; the supplier and admin branches return only rows
older than 30 days, newest first, capped at 100 and 200 rows. -/
theorem get_old_orders_by_role (rows : List DecisionRow) (username : String)
    (today : Nat) :
    get_old_orders rows "seller" username today =
      .error "no such column: campaign_id" ∧
    (∀ out, get_old_orders rows "supplier" username today = .ok out →
       out.length ≤ 100 ∧
       out.Pairwise (fun a b => b.timestamp ≤ a.timestamp) ∧
       ∀ r ∈ out, r.username = username ∧ r.role = "supplier" ∧
         r.timestamp + 30 < today) ∧
    (∀ out, get_old_orders rows "admin" username today = .ok out →
       out.length ≤ 200 ∧
       out.Pairwise (fun a b => b.timestamp ≤ a.timestamp) ∧
       ∀ r ∈ out, r.timestamp + 30 < today) := by
  refine ⟨rfl, ?_, ?_⟩
  · intro out hout
    simp only [get_old_orders, String.reduceEq, reduceIte,
      Except.ok.injEq] at hout
    subst hout
    refine ⟨List.length_take_le _ _, ?_, ?_⟩
    · exact sorted_sortDescBy.sublist (List.take_sublist _ _)
    · intro r hr
      have hmem : r ∈ sortDescBy (fun r => r.timestamp)
          (rows.filter (fun r => r.username = username &&
            r.role = "supplier" && olderThan30 today r)) :=
        (List.take_sublist _ _).mem hr
      have hf := (List.mem_filter.mp (mem_sortDescBy.mp hmem)).2
      simp only [olderThan30, Bool.and_eq_true, decide_eq_true_eq] at hf
      exact ⟨hf.1.1, hf.1.2, hf.2⟩
  · intro out hout
    simp only [get_old_orders, String.reduceEq, reduceIte,
      Except.ok.injEq] at hout
    subst hout
    refine ⟨List.length_take_le _ _, ?_, ?_⟩
    · exact sorted_sortDescBy.sublist (List.take_sublist _ _)
    · intro r hr
      have hmem : r ∈ sortDescBy (fun r => r.timestamp)
          (rows.filter (fun r => olderThan30 today r)) :=
        (List.take_sublist _ _).mem hr
      have hf := (List.mem_filter.mp (mem_sortDescBy.mp hmem)).2
      simpa [olderThan30] using hf

/-- Witness for the C7 theorem at a concrete ledger. -/
theorem get_old_orders_by_role_witness :
    get_old_orders [] "seller" "alice" 40 =
      .error "no such column: campaign_id" :=
  (get_old_orders_by_role [] "alice" 40).1

/-- Counterexample to claim C10 as stated: under maintenance mode the
global before_request gate answers 423 Locked to a tokenless request for
a manifest while an admin token still retrieves the file — the result of
the download is not independent of the credential presented. -/
theorem pdf_download_not_token_blind_cex :
    handle_get_pdf true
      (fun h => if h = "admintoken" then some ("root", 100) else none)
      (fun u => if u = "root" then some "admin" else none)
      (fun t => t) 50 (some "admintoken")
      (fun f => if f = "m.pdf" then some "PDFBYTES" else none) "m.pdf" =
      .file "PDFBYTES" ∧
    handle_get_pdf true
      (fun h => if h = "admintoken" then some ("root", 100) else none)
      (fun u => if u = "root" then some "admin" else none)
      (fun t => t) 50 none
      (fun f => if f = "m.pdf" then some "PDFBYTES" else none) "m.pdf" =
      .locked ∧
    (PdfResponse.file "PDFBYTES") ≠ PdfResponse.locked := by
  refine ⟨rfl, rfl, by decide⟩

/-- Claim C10 (amended): outside maintenance mode the manifest download
performs no credential or role validation — for every filename the
result is identical whatever token (valid, expired or absent) the
request presents; only the maintenance-mode gate, which rejects
non-admin requests wholesale, makes the outcome credential-dependent. -/
theorem pdf_download_token_blind (sessions : String → Option (String × Nat))
    (userRole : String → Option String) (hash : String → String) (now : Nat)
    (auth1 auth2 : Option String) (files : String → Option String)
    (filename : String) :
    handle_get_pdf false sessions userRole hash now auth1 files filename =
    handle_get_pdf false sessions userRole hash now auth2 files filename := by
  simp [handle_get_pdf]

end OrderApp
